import Mathlib

/-!
Shallow embedding of `BuildingLevel` (rmf_traffic_editor, `building_level.cpp`)
and proofs about its deletion, scale-calibration, serialization and selection
operations.

Numeric modelling: the C++ code computes in `double`; we idealize doubles as
exact rationals (`ℚ`). Pixel dimensions are also kept as `ℚ`.  The C++ `sqrt`
is modelled by `sqrtQ`, the exact rational square root on perfect-square
inputs; every property below either uses `sqrtQ` consistently on both sides
or evaluates it on perfect squares only.  `std::map<std::string, Param>` is
modelled as an association list with the C++ `operator[]` default (a
zero-initialized `Param`).
-/

/-- A parameter value attached by name to an edge (from `param.h`: a tagged
union; only the members read by this translation unit are modelled).  The C++
default constructor zero-initializes the numeric members. -/
structure Param where
  value_double : ℚ := 0
  value_string : String := ""
  value_int : ℤ := 0
deriving DecidableEq, Repr

/-- A 2-D vertex in pixel space with a selection flag (data model of
`vertex.h` as used by `building_level.cpp`). -/
structure Vertex where
  x : ℚ
  y : ℚ
  selected : Bool := false
deriving DecidableEq, Repr

/-- Edge type tag (`Edge::LANE/WALL/MEAS/DOOR`); `OTHER` stands for any value
of the C++ enum outside these four (the `default:` case of the switches). -/
inductive EdgeType where
  | LANE
  | WALL
  | MEAS
  | DOOR
  | OTHER
deriving DecidableEq, Repr

/-- An edge: an ordered pair of vertex indices, a type tag, a selection flag
and a named parameter map (data model of `edge.h` as used here). -/
structure Edge where
  start_idx : ℕ
  end_idx : ℕ
  type : EdgeType
  selected : Bool := false
  params : List (String × Param) := []
deriving DecidableEq, Repr

/-- Polygon type tag (`Polygon::FLOOR`); `OTHER` stands for any other value
of the C++ enum (the `default:` case). -/
inductive PolygonType where
  | FLOOR
  | OTHER
deriving DecidableEq, Repr

/-- A polygon: an ordered list of vertex indices, a type tag and a selection
flag (data model of `polygon.h` as used here). -/
structure Polygon where
  type : PolygonType
  vertices : List ℕ
  selected : Bool := false
deriving DecidableEq, Repr

/-- A placed model: name, position, yaw and selection flag (data model of
`model.h` as used by `building_level.cpp`). -/
structure Model where
  model_name : String := ""
  x : ℚ := 0
  y : ℚ := 0
  yaw : ℚ := 0
  selected : Bool := false
deriving DecidableEq, Repr

/-- A fiducial marker with a selection flag (data model of `fiducial.h` as
used here). -/
structure Fiducial where
  x : ℚ := 0
  y : ℚ := 0
  fid_name : String := ""
  selected : Bool := false
deriving DecidableEq, Repr

/-- An auxiliary raster layer (data model of `layer.h` as used here; layers
carry no selection flag in this code). -/
structure Layer where
  name : String := ""
  visible : Bool := true
  meters_per_pixel : ℚ := 1
  translation_x : ℚ := 0
  translation_y : ℚ := 0
  rotation : ℚ := 0
deriving DecidableEq, Repr

/-- The level aggregate (`BuildingLevel`): the collections plus drawing and
physical-dimension metadata.  `drawing_filename = ""` models an absent
background image (the C++ code tests `drawing_filename.empty()`). -/
structure BuildingLevel where
  name : String := ""
  drawing_filename : String := ""
  drawing_width : ℚ := 0
  drawing_height : ℚ := 0
  drawing_meters_per_pixel : ℚ := 0
  x_meters : ℚ := 0
  y_meters : ℚ := 0
  elevation : ℚ := 0
  vertices : List Vertex := []
  edges : List Edge := []
  polygons : List Polygon := []
  models : List Model := []
  fiducials : List Fiducial := []
  layers : List Layer := []
deriving DecidableEq, Repr

/-! ## delete_selected (building_level.cpp lines 225-294) -/

/-- Index of the first vertex flagged `selected` (the scan loop at the top of
the vertex-deletion part of `delete_selected`; the C++ breaks at the first
hit, leaving `-1`, here `none`, when no vertex is selected). -/
def firstSelectedVertexIdx (vs : List Vertex) : Option ℕ :=
  vs.findIdx? (fun v => v.selected)

/-- The usage check of `delete_selected`: whether vertex index `k` occurs as
an endpoint of any edge or in any polygon's vertex-index list. -/
def vertexUsed (edges : List Edge) (polygons : List Polygon) (k : ℕ) : Bool :=
  edges.any (fun e => e.start_idx == k || e.end_idx == k) ||
    polygons.any (fun p => p.vertices.contains k)

/-- The index decrement performed after erasing the vertex at index `k`:
indices strictly greater than `k` drop by one, the rest are untouched. -/
def shiftIdx (k n : ℕ) : ℕ := if n > k then n - 1 else n

/-- `BuildingLevel::delete_selected`.  Removes every selected edge, model and
fiducial; then, if some vertex is selected, takes the first such index,
refuses (returning `false`) when it is still used by an edge or polygon, and
otherwise erases it and decrements all larger stored indices.  Polygons are
not removed by this function in the source. -/
def delete_selected (lvl : BuildingLevel) : BuildingLevel × Bool :=
  let edges2 := lvl.edges.filter fun e => !e.selected
  let models2 := lvl.models.filter fun m => !m.selected
  let fiducials2 := lvl.fiducials.filter fun f => !f.selected
  match firstSelectedVertexIdx lvl.vertices with
  | none => ({ lvl with edges := edges2, models := models2, fiducials := fiducials2 }, true)
  | some k =>
    if vertexUsed edges2 lvl.polygons k then
      ({ lvl with edges := edges2, models := models2, fiducials := fiducials2 }, false)
    else
      ({ lvl with
          vertices := lvl.vertices.eraseIdx k,
          edges := edges2.map fun e =>
            { e with start_idx := shiftIdx k e.start_idx,
                     end_idx := shiftIdx k e.end_idx },
          models := models2,
          fiducials := fiducials2,
          polygons := lvl.polygons.map fun p =>
            { p with vertices := p.vertices.map (shiftIdx k) } },
        true)

/-! ## calculate_scale (building_level.cpp lines 296-331) -/

/-- Exact rational square root: on a nonnegative rational whose numerator and
denominator are perfect squares this is the mathematical square root (in
particular `sqrtQ 0 = 0` and `sqrtQ q > 0` for `q > 0`).  It models the C++
`sqrt` over our idealized-rational doubles; every theorem below either uses
it consistently on both sides or evaluates it on perfect squares. -/
def sqrtQ (q : ℚ) : ℚ :=
  (Nat.sqrt q.num.toNat : ℚ) / (Nat.sqrt q.den : ℚ)

/-- `vertices[i]` as the source reads it (indexing is unchecked in the C++;
out-of-range access is modelled by an origin vertex). -/
def vtxAt (lvl : BuildingLevel) (i : ℕ) : Vertex :=
  (lvl.vertices[i]?).getD ⟨0, 0, false⟩

/-- Euclidean pixel distance between an edge's two endpoint vertices
(`sqrt(dx*dx + dy*dy)` in `calculate_scale`). -/
def pixelDist (lvl : BuildingLevel) (e : Edge) : ℚ :=
  let dx := (vtxAt lvl e.start_idx).x - (vtxAt lvl e.end_idx).x
  let dy := (vtxAt lvl e.start_idx).y - (vtxAt lvl e.end_idx).y
  sqrtQ (dx * dx + dy * dy)

/-- `edge.params[std::string("distance")].value_double`: `std::map::operator[]`
yields a default-constructed `Param` (hence `0`) when the key is absent. -/
def distanceMeters (e : Edge) : ℚ :=
  ((e.params.lookup "distance").getD {}).value_double

/-- The accumulation loop of `calculate_scale`: for every edge of type
`MEAS`, add `distance_meters / distance_pixels` into `scale_sum` and bump
`scale_count`.  The division is performed with no guard on a zero divisor
(in ℚ the junk value `x / 0 = 0` stands where the C++ doubles produce a
non-finite value; see `scaleDivisorsNonzero`). -/
def scaleAccum (lvl : BuildingLevel) : ℚ × ℕ :=
  lvl.edges.foldl
    (fun acc e =>
      if e.type = EdgeType.MEAS then
        (acc.1 + distanceMeters e / pixelDist lvl e, acc.2 + 1)
      else acc)
    (0, 0)

/-- The pixel distances the measurement loop divides by, in loop order. -/
def measDivisors (lvl : BuildingLevel) : List ℚ :=
  (lvl.edges.filter fun e => e.type = EdgeType.MEAS).map (pixelDist lvl)

/-- Whether every division performed by the measurement loop of
`calculate_scale` has a nonzero divisor.  When this is `false` the C++
double arithmetic produces a non-finite quotient (±inf or NaN) which is
summed into `scale_sum` and reaches `drawing_meters_per_pixel`; the source
contains no guard against it. -/
def scaleDivisorsNonzero (lvl : BuildingLevel) : Bool :=
  (measDivisors lvl).all (fun d => !(d == 0))

/-- The meters-per-pixel value `calculate_scale` computes:
`scale_sum / scale_count` when at least one measurement edge exists,
otherwise the default `0.05`. -/
def scaleMpp (lvl : BuildingLevel) : ℚ :=
  if 0 < (scaleAccum lvl).2 then (scaleAccum lvl).1 / ((scaleAccum lvl).2 : ℚ)
  else 1 / 20

/-- `BuildingLevel::calculate_scale`: sets `drawing_meters_per_pixel` to the
mean of the measurement ratios (default 0.05 when there are none), then, if
both pixel dimensions are nonzero and the scale is positive, recomputes
`x_meters`/`y_meters` from the pixel dimensions (otherwise they are left as
they were). -/
def calculate_scale (lvl : BuildingLevel) : BuildingLevel :=
  if lvl.drawing_width ≠ 0 ∧ lvl.drawing_height ≠ 0 ∧ 0 < scaleMpp lvl then
    { lvl with drawing_meters_per_pixel := scaleMpp lvl,
               x_meters := lvl.drawing_width * scaleMpp lvl,
               y_meters := lvl.drawing_height * scaleMpp lvl }
  else
    { lvl with drawing_meters_per_pixel := scaleMpp lvl }

/-- The list of per-measurement-edge ratios `distance_meters / distance_pixels`
(the quantities averaged by `calculate_scale`), used to state the claims. -/
def measRatios (lvl : BuildingLevel) : List ℚ :=
  (lvl.edges.filter fun e => e.type = EdgeType.MEAS).map
    (fun e => distanceMeters e / pixelDist lvl e)

/-! ## clear_selection (building_level.cpp lines 720-736) -/

/-- `BuildingLevel::clear_selection`: sets the `selected` flag of every
vertex, edge, model, polygon and fiducial to `false`. -/
def clear_selection (lvl : BuildingLevel) : BuildingLevel :=
  { lvl with
    vertices := lvl.vertices.map fun v => { v with selected := false },
    edges := lvl.edges.map fun e => { e with selected := false },
    models := lvl.models.map fun m => { m with selected := false },
    polygons := lvl.polygons.map fun p => { p with selected := false },
    fiducials := lvl.fiducials.map fun f => { f with selected := false } }

/-! ## to_yaml (building_level.cpp lines 153-223): the emitted sequences -/

/-- The `dict_name` computation in `to_yaml`'s edge loop: the variable is
initialized to `"unknown"` and the switch overwrites it for the four known
types; the `default:` case only prints a diagnostic, leaving `"unknown"`,
and the `push_back` that follows runs unconditionally. -/
def edgeDictName (t : EdgeType) : String :=
  match t with
  | EdgeType.LANE => "lanes"
  | EdgeType.WALL => "walls"
  | EdgeType.MEAS => "measurements"
  | EdgeType.DOOR => "doors"
  | EdgeType.OTHER => "unknown"

/-- One record pushed into a sequence of the emitted YAML node, tagged by the
element it serializes. -/
inductive YamlRec where
  | vrec (v : Vertex)
  | frec (f : Fiducial)
  | erec (e : Edge)
  | mrec (m : Model)
  | prec (p : Polygon)
deriving DecidableEq, Repr

/-- The sequence-valued entries emitted by `BuildingLevel::to_yaml`, as
(key, record) pairs in emission order: all vertices under `"vertices"`, all
fiducials under `"fiducials"`, every edge under `edgeDictName` of its type
(the push is outside the switch), all models under `"models"`, and only
`FLOOR` polygons under `"floors"` (the polygon push is inside the switch, so
other polygon types emit nothing). -/
def to_yaml_seqs (lvl : BuildingLevel) : List (String × YamlRec) :=
  lvl.vertices.map (fun v => ("vertices", YamlRec.vrec v)) ++
    lvl.fiducials.map (fun f => ("fiducials", YamlRec.frec f)) ++
    lvl.edges.map (fun e => (edgeDictName e.type, YamlRec.erec e)) ++
    lvl.models.map (fun m => ("models", YamlRec.mrec m)) ++
    (lvl.polygons.filter fun p => p.type = PolygonType.FLOOR).map
      (fun p => ("floors", YamlRec.prec p))

/-! ## from_yaml (building_level.cpp lines 40-151) -/

/-- A vertex record of the serialized form.  Modelled from the spec: the
`parse_vertices` helper lives outside this translation unit; per the spec the
vertex sequence populates the store in order, and selection state is never
persisted. -/
structure VertexYaml where
  x : ℚ
  y : ℚ
deriving DecidableEq, Repr

/-- An edge record of the serialized form: two endpoint indices plus a
parameter map.  Modelled from the spec: `load_yaml_edge_sequence` lives
outside this translation unit; the type tag is implicit from which sequence
the record appears in. -/
structure EdgeYaml where
  start_idx : ℕ
  end_idx : ℕ
  params : List (String × Param) := []
deriving DecidableEq, Repr

/-- The level node of the serialized form, with exactly the fields
`BuildingLevel::from_yaml` reads.  `drawing` is the `drawing.filename`
string when a `drawing` block is present. -/
structure LevelYaml where
  drawing : Option String := none
  x_meters : Option ℚ := none
  y_meters : Option ℚ := none
  elevation : Option ℚ := none
  vertices : List VertexYaml := []
  fiducials : List Fiducial := []
  lanes : List EdgeYaml := []
  walls : List EdgeYaml := []
  measurements : List EdgeYaml := []
  doors : List EdgeYaml := []
  models : List Model := []
  floors : List (List ℕ) := []
  layers : List Layer := []
deriving DecidableEq, Repr

/-- Builds the typed edges of one serialized sequence (the spec's grouped
loading: type implicit from the container name). -/
def loadEdges (t : EdgeType) (es : List EdgeYaml) : List Edge :=
  es.map fun e =>
    { start_idx := e.start_idx, end_idx := e.end_idx, type := t,
      selected := false, params := e.params }

/-- `BuildingLevel::from_yaml`.  `img` models the external image reader: the
pixel dimensions of a background image by filename, `none` when unreadable
(the C++ then returns `false`, here `none`).  With a `drawing` block the
pixel dimensions come from the image; otherwise with both `x_meters` and
`y_meters` present the dimensions are derived at the default scale 0.05;
absent both, a 100×100 m level at scale 0.05.  Collections are then
populated and `calculate_scale` runs last. -/
def from_yaml (nm : String) (node : LevelYaml)
    (img : String → Option (ℚ × ℚ)) : Option BuildingLevel :=
  let base : Option BuildingLevel :=
    match node.drawing with
    | some fname =>
      match img fname with
      | none => none
      | some wh =>
        some { name := nm, drawing_filename := fname,
               drawing_width := wh.1, drawing_height := wh.2 }
    | none =>
      match node.x_meters, node.y_meters with
      | some xm, some ym =>
        some { name := nm, x_meters := xm, y_meters := ym,
               drawing_meters_per_pixel := 1 / 20,
               drawing_width := xm / (1 / 20),
               drawing_height := ym / (1 / 20) }
      | _, _ =>
        some { name := nm, x_meters := 100, y_meters := 100,
               drawing_meters_per_pixel := 1 / 20,
               drawing_width := 100 / (1 / 20),
               drawing_height := 100 / (1 / 20) }
  match base with
  | none => none
  | some lvl =>
    some (calculate_scale
      { lvl with
        vertices := node.vertices.map fun v => ⟨v.x, v.y, false⟩,
        fiducials := node.fiducials,
        edges := loadEdges EdgeType.LANE node.lanes ++
          loadEdges EdgeType.WALL node.walls ++
          loadEdges EdgeType.MEAS node.measurements ++
          loadEdges EdgeType.DOOR node.doors,
        models := node.models,
        polygons := node.floors.map fun vs =>
          { type := PolygonType.FLOOR, vertices := vs, selected := false },
        elevation := node.elevation.getD lvl.elevation,
        layers := node.layers })

/-! ## Concrete levels used by the counterexamples and witnesses -/

/-- A level whose only vertex is selected and is referenced only by an edge
that is itself selected. -/
def lvlSelEdgeOnly : BuildingLevel :=
  { vertices := [⟨0, 0, true⟩],
    edges := [{ start_idx := 0, end_idx := 0, type := EdgeType.LANE, selected := true }] }

/-- A level whose only vertex is selected and is referenced by an unselected
edge. -/
def lvlRefusal : BuildingLevel :=
  { vertices := [⟨0, 0, true⟩],
    edges := [{ start_idx := 0, end_idx := 0, type := EdgeType.LANE }] }

/-- A level containing one selected polygon and nothing else. -/
def lvlSelPolygon : BuildingLevel :=
  { polygons := [{ type := PolygonType.FLOOR, vertices := [], selected := true }] }

/-- The spec's P3 scenario: vertices `[v0,v1,v2,v3]` with unused `v2`
selected, and one edge `(1,3)`. -/
def lvlP3 : BuildingLevel :=
  { vertices := [⟨0, 0, false⟩, ⟨1, 0, false⟩, ⟨2, 0, true⟩, ⟨3, 0, false⟩],
    edges := [{ start_idx := 1, end_idx := 3, type := EdgeType.LANE }] }

/-- A level with content but nothing selected. -/
def lvlNoSel : BuildingLevel :=
  { vertices := [⟨1, 2, false⟩],
    edges := [{ start_idx := 0, end_idx := 0, type := EdgeType.WALL }],
    polygons := [{ type := PolygonType.FLOOR, vertices := [0] }] }

/-! ## Helper lemmas -/

/-- Filtering the edge list cannot make an unused vertex used. -/
theorem vertexUsed_filter {edges : List Edge} {polygons : List Polygon} {k : ℕ}
    (p : Edge → Bool) (h : vertexUsed edges polygons k = false) :
    vertexUsed (edges.filter p) polygons k = false := by
  simp only [vertexUsed, Bool.or_eq_false_iff, List.any_eq_false] at h ⊢
  exact ⟨fun e he => h.1 e (List.mem_of_mem_filter he), h.2⟩

/-- Complete case analysis of `delete_selected`: no vertex selected (success,
collections filtered), first selected vertex in use (failure, collections
filtered), or first selected vertex unused (success, vertex erased and
indices shifted). -/
theorem delete_selected_spec (lvl : BuildingLevel) :
    (firstSelectedVertexIdx lvl.vertices = none ∧
      delete_selected lvl =
        ({ lvl with edges := lvl.edges.filter fun e => !e.selected,
                    models := lvl.models.filter fun m => !m.selected,
                    fiducials := lvl.fiducials.filter fun f => !f.selected }, true)) ∨
    (∃ k, firstSelectedVertexIdx lvl.vertices = some k ∧
      vertexUsed (lvl.edges.filter fun e => !e.selected) lvl.polygons k = true ∧
      delete_selected lvl =
        ({ lvl with edges := lvl.edges.filter fun e => !e.selected,
                    models := lvl.models.filter fun m => !m.selected,
                    fiducials := lvl.fiducials.filter fun f => !f.selected }, false)) ∨
    (∃ k, firstSelectedVertexIdx lvl.vertices = some k ∧
      vertexUsed (lvl.edges.filter fun e => !e.selected) lvl.polygons k = false ∧
      delete_selected lvl =
        ({ lvl with
            vertices := lvl.vertices.eraseIdx k,
            edges := (lvl.edges.filter fun e => !e.selected).map fun e =>
              { e with start_idx := shiftIdx k e.start_idx,
                       end_idx := shiftIdx k e.end_idx },
            models := lvl.models.filter fun m => !m.selected,
            fiducials := lvl.fiducials.filter fun f => !f.selected,
            polygons := lvl.polygons.map fun p =>
              { p with vertices := p.vertices.map (shiftIdx k) } }, true)) := by
  rcases h : firstSelectedVertexIdx lvl.vertices with _ | k
  · left
    refine ⟨rfl, ?_⟩
    unfold delete_selected
    rw [h]
  · by_cases hu : vertexUsed (lvl.edges.filter fun e => !e.selected) lvl.polygons k = true
    · right; left
      refine ⟨k, rfl, hu, ?_⟩
      unfold delete_selected
      rw [h]
      simp [hu]
    · right; right
      refine ⟨k, rfl, Bool.eq_false_iff.mpr hu, ?_⟩
      unfold delete_selected
      rw [h]
      simp [hu]

/-! ## C1 -/

/-- C1, counterexample.  The claim states that whenever the first selected
vertex is referenced by at least one edge, `delete_selected` returns `false`
and leaves the vertex count unchanged.  In `lvlSelEdgeOnly` the first
selected vertex (index 0) is referenced by an edge, yet the call returns
`true` and removes the vertex, because the referencing edge is itself
selected and is removed before the usage check runs. -/
theorem delete_selected_deletes_vertex_referenced_only_by_selected_edge :
    firstSelectedVertexIdx lvlSelEdgeOnly.vertices = some 0 ∧
    (lvlSelEdgeOnly.edges.any fun e => e.start_idx == 0 || e.end_idx == 0) = true ∧
    (delete_selected lvlSelEdgeOnly).2 = true ∧
    (delete_selected lvlSelEdgeOnly).1.vertices.length ≠ lvlSelEdgeOnly.vertices.length := by
  decide

/-- C1, amended.  If the first selected vertex is referenced by at least one
edge that survives the selected-edge removal (i.e. is not itself selected) or
by at least one polygon, then `delete_selected` returns `false`, leaves the
vertex collection and the polygon collection entirely unchanged, and leaves
the surviving edges (the unselected ones) with all their stored indices
unchanged. -/
theorem delete_selected_refuses_inuse_vertex (lvl : BuildingLevel) (k : ℕ)
    (h1 : firstSelectedVertexIdx lvl.vertices = some k)
    (h2 : vertexUsed (lvl.edges.filter fun e => !e.selected) lvl.polygons k = true) :
    (delete_selected lvl).2 = false ∧
    (delete_selected lvl).1.vertices = lvl.vertices ∧
    (delete_selected lvl).1.polygons = lvl.polygons ∧
    (delete_selected lvl).1.edges = lvl.edges.filter fun e => !e.selected := by
  unfold delete_selected
  rw [h1]
  simp [h2]

/-- C1 amended, witness at `lvlRefusal`. -/
theorem delete_selected_refuses_inuse_vertex_witness :
    (delete_selected lvlRefusal).2 = false ∧
    (delete_selected lvlRefusal).1.vertices = lvlRefusal.vertices ∧
    (delete_selected lvlRefusal).1.polygons = lvlRefusal.polygons ∧
    (delete_selected lvlRefusal).1.edges = lvlRefusal.edges.filter fun e => !e.selected :=
  delete_selected_refuses_inuse_vertex lvlRefusal 0 (by decide) (by decide)

/-! ## C2 -/

/-- C2, counterexample.  The claim states that after any `delete_selected`
call no polygon with `selected = true` remains; but the source removes only
selected edges, models and fiducials, never polygons, so the selected polygon
of `lvlSelPolygon` survives the call. -/
theorem delete_selected_keeps_selected_polygon :
    ((delete_selected lvlSelPolygon).1.polygons.any fun p => p.selected) = true := by
  decide

/-- C2, amended.  `delete_selected` unconditionally removes every selected
edge (and every selected model and fiducial) before the vertex-deletion
attempt, so after the call no selected edge, model or fiducial remains;
selected polygons are NOT removed: the polygon collection keeps its length
and every polygon keeps its selection flag. -/
theorem delete_selected_removes_selected_edges_models_fiducials
    (lvl : BuildingLevel) :
    ((delete_selected lvl).1.edges.all fun e => !e.selected) = true ∧
    ((delete_selected lvl).1.models.all fun m => !m.selected) = true ∧
    ((delete_selected lvl).1.fiducials.all fun f => !f.selected) = true ∧
    (delete_selected lvl).1.polygons.map (fun p => p.selected) =
      lvl.polygons.map fun p => p.selected := by
  have hedge : ((lvl.edges.filter fun e => !e.selected).all fun e => !e.selected) = true := by
    simp only [List.all_eq_true]
    intro e he
    exact (List.mem_filter.mp he).2
  have hmodel : ((lvl.models.filter fun m => !m.selected).all fun m => !m.selected) = true := by
    simp only [List.all_eq_true]
    intro m hm
    exact (List.mem_filter.mp hm).2
  have hfid : ((lvl.fiducials.filter fun f => !f.selected).all fun f => !f.selected) = true := by
    simp only [List.all_eq_true]
    intro f hf
    exact (List.mem_filter.mp hf).2
  rcases delete_selected_spec lvl with ⟨h0, heq⟩ | ⟨k, h0, hu, heq⟩ | ⟨k, h0, hu, heq⟩ <;>
    rw [heq]
  · exact ⟨hedge, hmodel, hfid, rfl⟩
  · exact ⟨hedge, hmodel, hfid, rfl⟩
  · refine ⟨?_, hmodel, hfid, ?_⟩
    · show ((lvl.edges.filter fun e => !e.selected).map _).all _ = true
      rw [List.all_map]
      simp only [List.all_eq_true] at hedge ⊢
      intro e he
      exact hedge e he
    · show (lvl.polygons.map _).map _ = _
      rw [List.map_map]
      simp [Function.comp]

/-! ## C3 -/

/-- C3, confirmed.  When the first selected vertex index `k` is referenced by
no edge and no polygon, `delete_selected` succeeds: it erases the vertex at
`k` and rewrites every stored vertex index through `shiftIdx k`, which
decrements indices strictly greater than `k` by exactly one and leaves
indices `≤ k` unchanged (the edges that survive are those not selected,
which were removed first). -/
theorem delete_selected_reindexes_after_unused_vertex_delete
    (lvl : BuildingLevel) (k : ℕ)
    (h1 : firstSelectedVertexIdx lvl.vertices = some k)
    (h2 : vertexUsed lvl.edges lvl.polygons k = false) :
    (delete_selected lvl).2 = true ∧
    (delete_selected lvl).1.vertices = lvl.vertices.eraseIdx k ∧
    (delete_selected lvl).1.edges =
      (lvl.edges.filter fun e => !e.selected).map (fun e =>
        { e with start_idx := shiftIdx k e.start_idx,
                 end_idx := shiftIdx k e.end_idx }) ∧
    (delete_selected lvl).1.polygons =
      lvl.polygons.map fun p => { p with vertices := p.vertices.map (shiftIdx k) } := by
  have h3 := vertexUsed_filter (fun e => !e.selected) h2
  unfold delete_selected
  rw [h1]
  simp [h3]

/-- C3, witness: the spec's P3 scenario.  Deleting unused `v2` from
`[v0,v1,v2,v3]` with edge `(1,3)` yields `[v0,v1,v3]` and the edge `(1,2)`. -/
theorem delete_selected_reindexes_after_unused_vertex_delete_witness :
    ((delete_selected lvlP3).2 = true ∧
      (delete_selected lvlP3).1.vertices = lvlP3.vertices.eraseIdx 2 ∧
      (delete_selected lvlP3).1.edges =
        (lvlP3.edges.filter fun e => !e.selected).map (fun e =>
          { e with start_idx := shiftIdx 2 e.start_idx,
                   end_idx := shiftIdx 2 e.end_idx }) ∧
      (delete_selected lvlP3).1.polygons =
        lvlP3.polygons.map fun p => { p with vertices := p.vertices.map (shiftIdx 2) }) ∧
    (delete_selected lvlP3).1.vertices = [⟨0, 0, false⟩, ⟨1, 0, false⟩, ⟨3, 0, false⟩] ∧
    (delete_selected lvlP3).1.edges =
      [{ start_idx := 1, end_idx := 2, type := EdgeType.LANE }] :=
  ⟨delete_selected_reindexes_after_unused_vertex_delete lvlP3 2 (by decide) (by decide),
    by decide, by decide⟩

/-! ## C4 -/

/-- C4, confirmed.  `delete_selected` deletes at most one vertex per call:
the vertex collection is either unchanged or loses exactly the first selected
vertex; when no vertex is selected the call leaves the vertices unchanged and
returns `true`; and whenever the first selected vertex is not used by the
surviving edges or the polygons, the call returns `true`. -/
theorem delete_selected_at_most_one_vertex (lvl : BuildingLevel) :
    ((delete_selected lvl).1.vertices = lvl.vertices ∨
      ∃ k, firstSelectedVertexIdx lvl.vertices = some k ∧
        (delete_selected lvl).1.vertices = lvl.vertices.eraseIdx k) ∧
    (firstSelectedVertexIdx lvl.vertices = none →
      (delete_selected lvl).2 = true ∧
      (delete_selected lvl).1.vertices = lvl.vertices) ∧
    (∀ k, firstSelectedVertexIdx lvl.vertices = some k →
      vertexUsed (lvl.edges.filter fun e => !e.selected) lvl.polygons k = false →
      (delete_selected lvl).2 = true) := by
  rcases delete_selected_spec lvl with ⟨h0, heq⟩ | ⟨k, h0, hu, heq⟩ | ⟨k, h0, hu, heq⟩ <;>
    rw [heq]
  · exact ⟨Or.inl rfl, fun _ => ⟨rfl, rfl⟩, fun _ _ _ => rfl⟩
  · refine ⟨Or.inl rfl, ?_, ?_⟩
    · intro hn
      rw [h0] at hn
      exact Option.noConfusion hn
    · intro k' hk' hun
      rw [h0] at hk'
      obtain rfl : k = k' := Option.some.inj hk'
      rw [hu] at hun
      exact absurd hun (by simp)
  · refine ⟨Or.inr ⟨k, h0, rfl⟩, ?_, fun _ _ _ => rfl⟩
    intro hn
    rw [h0] at hn
    exact Option.noConfusion hn

/-- C4, witness at `lvlNoSel` (nothing selected: vertices unchanged, call
succeeds). -/
theorem delete_selected_at_most_one_vertex_witness :
    (delete_selected lvlNoSel).2 = true ∧
    (delete_selected lvlNoSel).1.vertices = lvlNoSel.vertices :=
  (delete_selected_at_most_one_vertex lvlNoSel).2.1 (by decide)

/-! ## Scale-calibration helper lemmas and concrete levels -/

/-- `sqrtQ` is exact on squares of naturals. -/
theorem sqrtQ_natCast_mul_self (n : ℕ) : sqrtQ ((n : ℚ) * n) = n := by
  have h : ((n : ℚ) * n) = ((n * n : ℕ) : ℚ) := by push_cast; ring
  rw [h]
  unfold sqrtQ
  rw [Rat.num_natCast, Rat.den_natCast, Int.toNat_natCast, Nat.sqrt_eq, Nat.sqrt_one]
  norm_num

/-- `sqrtQ 0 = 0`: coincident endpoints give pixel distance exactly zero. -/
theorem sqrtQ_zero : sqrtQ 0 = 0 := by
  unfold sqrtQ
  norm_num

/-- The accumulation loop, started from any accumulator, adds the sum of the
measurement ratios and counts the measurement edges. -/
theorem scaleAccum_go (lvl : BuildingLevel) (es : List Edge) (s : ℚ) (n : ℕ) :
    es.foldl
      (fun acc e =>
        if e.type = EdgeType.MEAS then
          (acc.1 + distanceMeters e / pixelDist lvl e, acc.2 + 1)
        else acc)
      (s, n) =
    (s + ((es.filter fun e => e.type = EdgeType.MEAS).map
        fun e => distanceMeters e / pixelDist lvl e).sum,
      n + (es.filter fun e => e.type = EdgeType.MEAS).length) := by
  induction es generalizing s n with
  | nil => simp
  | cons e es ih =>
    by_cases h : e.type = EdgeType.MEAS
    · rw [List.foldl_cons, if_pos h, ih,
        List.filter_cons_of_pos (by simpa using h), List.map_cons, List.sum_cons,
        List.length_cons]
      rw [Prod.mk.injEq]
      constructor
      · ring
      · omega
    · rw [List.foldl_cons, if_neg h, ih,
        List.filter_cons_of_neg (by simpa using h)]

/-- `scaleAccum` computes the sum and the count of the measurement ratios. -/
theorem scaleAccum_eq (lvl : BuildingLevel) :
    scaleAccum lvl = ((measRatios lvl).sum, (measRatios lvl).length) := by
  unfold scaleAccum measRatios
  rw [scaleAccum_go]
  simp [List.length_map]

/-- The scale `calculate_scale` installs is `scaleMpp`. -/
theorem calculate_scale_mpp (lvl : BuildingLevel) :
    (calculate_scale lvl).drawing_meters_per_pixel = scaleMpp lvl := by
  unfold calculate_scale
  split <;> rfl

/-- `scaleMpp` as the claim states it: the arithmetic mean of the
measurement ratios, or the default `0.05` when there are none. -/
theorem scaleMpp_eq_mean (lvl : BuildingLevel) :
    scaleMpp lvl =
      if (measRatios lvl).length = 0 then 1 / 20
      else (measRatios lvl).sum / ((measRatios lvl).length : ℚ) := by
  unfold scaleMpp
  rw [scaleAccum_eq]
  rcases Nat.eq_zero_or_pos (measRatios lvl).length with h | h
  · simp [h]
  · rw [if_pos h, if_neg (Nat.pos_iff_ne_zero.mp h)]

/-- The measurement edge of the degenerate-calibration level: both endpoint
indices name coincident vertices; its stated physical length is 5 m. -/
def edgeZeroLen : Edge :=
  { start_idx := 0, end_idx := 1, type := EdgeType.MEAS,
    params := [("distance", { value_double := 5 })] }

/-- A level whose only measurement edge has coincident endpoints. -/
def lvlZeroMeas : BuildingLevel :=
  { vertices := [⟨0, 0, false⟩, ⟨0, 0, false⟩], edges := [edgeZeroLen] }

/-- The spec's P6 scenario: measurement edges of pixel length 100 and 200
with stated physical lengths 5 m and 8 m. -/
def edgeP6a : Edge :=
  { start_idx := 0, end_idx := 1, type := EdgeType.MEAS,
    params := [("distance", { value_double := 5 })] }

/-- Second measurement edge of the P6 scenario. -/
def edgeP6b : Edge :=
  { start_idx := 0, end_idx := 2, type := EdgeType.MEAS,
    params := [("distance", { value_double := 8 })] }

/-- The P6 level: vertices at (0,0), (100,0), (0,200) and the two
measurement edges. -/
def lvlP6 : BuildingLevel :=
  { vertices := [⟨0, 0, false⟩, ⟨100, 0, false⟩, ⟨0, 200, false⟩],
    edges := [edgeP6a, edgeP6b] }

/-- Evaluation principle for `sqrtQ` on a square of a natural. -/
theorem sqrtQ_congr_nat {q : ℚ} {n : ℕ} (h : q = (n : ℚ) * n) : sqrtQ q = n := by
  rw [h, sqrtQ_natCast_mul_self]

/-- Pixel distance of the first P6 measurement edge. -/
theorem pixelDist_lvlP6_a : pixelDist lvlP6 edgeP6a = 100 := by
  have h : pixelDist lvlP6 edgeP6a = ((100 : ℕ) : ℚ) := by
    refine sqrtQ_congr_nat ?_
    have h0 : vtxAt lvlP6 edgeP6a.start_idx = ⟨0, 0, false⟩ := rfl
    have h1 : vtxAt lvlP6 edgeP6a.end_idx = ⟨100, 0, false⟩ := rfl
    rw [h0, h1]
    norm_num
  rw [h]
  norm_num

/-- Pixel distance of the second P6 measurement edge. -/
theorem pixelDist_lvlP6_b : pixelDist lvlP6 edgeP6b = 200 := by
  have h : pixelDist lvlP6 edgeP6b = ((200 : ℕ) : ℚ) := by
    refine sqrtQ_congr_nat ?_
    have h0 : vtxAt lvlP6 edgeP6b.start_idx = ⟨0, 0, false⟩ := rfl
    have h1 : vtxAt lvlP6 edgeP6b.end_idx = ⟨0, 200, false⟩ := rfl
    rw [h0, h1]
    norm_num
  rw [h]
  norm_num

/-- Pixel distance of the degenerate measurement edge is exactly zero. -/
theorem pixelDist_lvlZeroMeas : pixelDist lvlZeroMeas edgeZeroLen = 0 := by
  have h0 : vtxAt lvlZeroMeas edgeZeroLen.start_idx = ⟨0, 0, false⟩ := rfl
  have h1 : vtxAt lvlZeroMeas edgeZeroLen.end_idx = ⟨0, 0, false⟩ := rfl
  show sqrtQ _ = 0
  rw [h0, h1]
  have h : ((⟨0, 0, false⟩ : Vertex).x - (⟨0, 0, false⟩ : Vertex).x) *
        ((⟨0, 0, false⟩ : Vertex).x - (⟨0, 0, false⟩ : Vertex).x) +
        ((⟨0, 0, false⟩ : Vertex).y - (⟨0, 0, false⟩ : Vertex).y) *
        ((⟨0, 0, false⟩ : Vertex).y - (⟨0, 0, false⟩ : Vertex).y) = 0 := by norm_num
  rw [h, sqrtQ_zero]

/-! ## C5 -/

/-- C5, code bug.  The claim (and the spec, twice) requires the division
`distance_meters / distance_pixels` to be explicitly guarded against a zero
pixel distance.  The source performs the division unguarded: in
`lvlZeroMeas` the only measurement edge has coincident endpoints, its
divisor is exactly 0, the divisor list fails the all-nonzero check, and the
edge is still counted into the average (`scale_count = 1`) instead of being
excluded — so in C++ double arithmetic `5.0 / 0.0 = inf` enters `scale_sum`
and becomes `drawing_meters_per_pixel`. -/
theorem calculate_scale_divides_by_zero_pixel_distance :
    scaleDivisorsNonzero lvlZeroMeas = false ∧
    measDivisors lvlZeroMeas = [0] ∧
    (scaleAccum lvlZeroMeas).2 = 1 := by
  have hm : measDivisors lvlZeroMeas = [pixelDist lvlZeroMeas edgeZeroLen] := rfl
  have hd : measDivisors lvlZeroMeas = [0] := by rw [hm, pixelDist_lvlZeroMeas]
  refine ⟨?_, hd, ?_⟩
  · unfold scaleDivisorsNonzero
    rw [hd]
    simp
  · rw [scaleAccum_eq]
    rfl

/-! ## C6 -/

/-- C6, confirmed.  For every level, `calculate_scale` sets the scale to the
arithmetic mean of the per-measurement-edge ratios
`distance_meters / distance_pixels`, falling back to the fixed default 0.05
when no measurement edge exists; and on the P6 scenario (pixel distances 100
and 200, stated lengths 5 m and 8 m) the computed scale is exactly
`mean(0.05, 0.04) = 0.045 = 9/200`. -/
theorem calculate_scale_mean_of_measurement_ratios :
    (∀ lvl : BuildingLevel,
      (calculate_scale lvl).drawing_meters_per_pixel =
        if (measRatios lvl).length = 0 then 1 / 20
        else (measRatios lvl).sum / ((measRatios lvl).length : ℚ)) ∧
    (calculate_scale lvlP6).drawing_meters_per_pixel = 9 / 200 := by
  have hgen : ∀ lvl : BuildingLevel,
      (calculate_scale lvl).drawing_meters_per_pixel =
        if (measRatios lvl).length = 0 then 1 / 20
        else (measRatios lvl).sum / ((measRatios lvl).length : ℚ) := by
    intro lvl
    rw [calculate_scale_mpp, scaleMpp_eq_mean]
  refine ⟨hgen, ?_⟩
  rw [hgen lvlP6]
  have hr : measRatios lvlP6 =
      [distanceMeters edgeP6a / pixelDist lvlP6 edgeP6a,
        distanceMeters edgeP6b / pixelDist lvlP6 edgeP6b] := rfl
  have hda : distanceMeters edgeP6a = 5 := rfl
  have hdb : distanceMeters edgeP6b = 8 := rfl
  rw [hr, pixelDist_lvlP6_a, pixelDist_lvlP6_b, hda, hdb]
  norm_num

/-! ## C7 -/

/-- A level with stale physical dimensions and zero pixel dimensions. -/
def lvlStaleDims : BuildingLevel := { x_meters := 7 }

/-- A level with pixel dimensions 200 × 400 and no measurement edges. -/
def lvlDims : BuildingLevel := { drawing_width := 200, drawing_height := 400 }

/-- C7, counterexample.  The claim says `x_meters = drawing_width *
meters_per_pixel` holds after every `calculate_scale` call on every level
state.  But the recomputation is guarded by
`drawing_width && drawing_height && meters_per_pixel > 0`: with zero pixel
dimensions (`lvlStaleDims`) the stale `x_meters = 7` is kept, while
`drawing_width * meters_per_pixel = 0`. -/
theorem calculate_scale_keeps_stale_dims_on_zero_width :
    ¬((calculate_scale lvlStaleDims).x_meters =
        (calculate_scale lvlStaleDims).drawing_width *
          (calculate_scale lvlStaleDims).drawing_meters_per_pixel ∧
      (calculate_scale lvlStaleDims).y_meters =
        (calculate_scale lvlStaleDims).drawing_height *
          (calculate_scale lvlStaleDims).drawing_meters_per_pixel) := by
  have h : calculate_scale lvlStaleDims =
      { lvlStaleDims with drawing_meters_per_pixel := scaleMpp lvlStaleDims } := by
    unfold calculate_scale
    rw [if_neg (fun hc => hc.1 rfl)]
  rw [h]
  intro hc
  have h1 := hc.1
  norm_num [lvlStaleDims] at h1

/-- C7, amended.  After `calculate_scale`, if the level's pixel dimensions
are both nonzero and the computed scale is positive (the source's guard),
then `x_meters = drawing_width * meters_per_pixel` and
`y_meters = drawing_height * meters_per_pixel` hold exactly. -/
theorem calculate_scale_dimension_consistency (lvl : BuildingLevel)
    (h1 : lvl.drawing_width ≠ 0) (h2 : lvl.drawing_height ≠ 0)
    (h3 : 0 < (calculate_scale lvl).drawing_meters_per_pixel) :
    (calculate_scale lvl).x_meters =
      (calculate_scale lvl).drawing_width *
        (calculate_scale lvl).drawing_meters_per_pixel ∧
    (calculate_scale lvl).y_meters =
      (calculate_scale lvl).drawing_height *
        (calculate_scale lvl).drawing_meters_per_pixel := by
  rw [calculate_scale_mpp] at h3
  have h : calculate_scale lvl =
      { lvl with drawing_meters_per_pixel := scaleMpp lvl,
                 x_meters := lvl.drawing_width * scaleMpp lvl,
                 y_meters := lvl.drawing_height * scaleMpp lvl } := by
    unfold calculate_scale
    rw [if_pos ⟨h1, h2, h3⟩]
  rw [h]
  exact ⟨rfl, rfl⟩

/-- C7 amended, witness at `lvlDims` (200 × 400 pixels, default scale). -/
theorem calculate_scale_dimension_consistency_witness :
    (calculate_scale lvlDims).x_meters =
      (calculate_scale lvlDims).drawing_width *
        (calculate_scale lvlDims).drawing_meters_per_pixel ∧
    (calculate_scale lvlDims).y_meters =
      (calculate_scale lvlDims).drawing_height *
        (calculate_scale lvlDims).drawing_meters_per_pixel :=
  calculate_scale_dimension_consistency lvlDims
    (by norm_num [lvlDims]) (by norm_num [lvlDims])
    (by
      rw [calculate_scale_mpp, scaleMpp_eq_mean]
      norm_num [measRatios, lvlDims])

/-! ## C8 -/

/-- A level node with no drawing block and explicit physical dimensions
10 m × 20 m. -/
def nodeXY : LevelYaml := { x_meters := some 10, y_meters := some 20 }

/-- A level node with neither a drawing block nor physical dimensions. -/
def nodeEmpty : LevelYaml := {}

/-- An image reader that can read nothing (no image is consulted in the
scenarios below since no drawing block is present). -/
def noImg : String → Option (ℚ × ℚ) := fun _ => none

/-- The level `from_yaml` builds for `nodeXY` before the final
`calculate_scale` call. -/
def lvlC8a : BuildingLevel :=
  { name := "L1", x_meters := 10, y_meters := 20,
    drawing_meters_per_pixel := 1 / 20,
    drawing_width := 10 / (1 / 20), drawing_height := 20 / (1 / 20) }

/-- The level `from_yaml` builds for `nodeEmpty` before the final
`calculate_scale` call. -/
def lvlC8b : BuildingLevel :=
  { name := "L2", x_meters := 100, y_meters := 100,
    drawing_meters_per_pixel := 1 / 20,
    drawing_width := 100 / (1 / 20), drawing_height := 100 / (1 / 20) }

/-- C8, confirmed.  Deserializing a node with no drawing block and
`x_meters = 10`, `y_meters = 20` yields scale 0.05 and pixel dimensions
200 × 400; deserializing a node with neither a drawing block nor physical
dimensions yields a 100 × 100 meter level at scale 0.05. -/
theorem from_yaml_default_dimension_scenarios :
    ((from_yaml "L1" nodeXY noImg).map fun l =>
        (l.drawing_meters_per_pixel, l.drawing_width, l.drawing_height)) =
      some (1 / 20, 200, 400) ∧
    ((from_yaml "L2" nodeEmpty noImg).map fun l =>
        (l.drawing_meters_per_pixel, l.x_meters, l.y_meters)) =
      some (1 / 20, 100, 100) := by
  constructor
  · have hstep : from_yaml "L1" nodeXY noImg = some (calculate_scale lvlC8a) := rfl
    have hw : lvlC8a.drawing_width = 200 := by norm_num [lvlC8a]
    have hh : lvlC8a.drawing_height = 400 := by norm_num [lvlC8a]
    have hmpp : scaleMpp lvlC8a = 1 / 20 := by
      rw [scaleMpp_eq_mean]
      norm_num [measRatios, lvlC8a]
    have hcs : calculate_scale lvlC8a =
        { lvlC8a with drawing_meters_per_pixel := scaleMpp lvlC8a,
                      x_meters := lvlC8a.drawing_width * scaleMpp lvlC8a,
                      y_meters := lvlC8a.drawing_height * scaleMpp lvlC8a } := by
      unfold calculate_scale
      rw [if_pos ⟨by rw [hw]; norm_num, by rw [hh]; norm_num, by rw [hmpp]; norm_num⟩]
    rw [hstep, hcs]
    norm_num [hmpp, hw, hh]
  · have hstep : from_yaml "L2" nodeEmpty noImg = some (calculate_scale lvlC8b) := rfl
    have hw : lvlC8b.drawing_width = 2000 := by norm_num [lvlC8b]
    have hh : lvlC8b.drawing_height = 2000 := by norm_num [lvlC8b]
    have hmpp : scaleMpp lvlC8b = 1 / 20 := by
      rw [scaleMpp_eq_mean]
      norm_num [measRatios, lvlC8b]
    have hcs : calculate_scale lvlC8b =
        { lvlC8b with drawing_meters_per_pixel := scaleMpp lvlC8b,
                      x_meters := lvlC8b.drawing_width * scaleMpp lvlC8b,
                      y_meters := lvlC8b.drawing_height * scaleMpp lvlC8b } := by
      unfold calculate_scale
      rw [if_pos ⟨by rw [hw]; norm_num, by rw [hh]; norm_num, by rw [hmpp]; norm_num⟩]
    rw [hstep, hcs]
    norm_num [hmpp, hw, hh]

/-! ## C9 -/

/-- An edge whose type tag is outside {lane, wall, measurement, door}. -/
def edgeUnknown : Edge := { start_idx := 0, end_idx := 0, type := EdgeType.OTHER }

/-- A level containing one unknown-type edge. -/
def lvlUnknownEdge : BuildingLevel := { edges := [edgeUnknown] }

/-- A polygon whose type tag is not `floor`. -/
def polyUnknown : Polygon := { type := PolygonType.OTHER, vertices := [0] }

/-- A level containing one unknown-type edge and one non-floor polygon. -/
def lvlUnknownTags : BuildingLevel :=
  { edges := [edgeUnknown], polygons := [polyUnknown] }

/-- C9, counterexample.  The claim says a record for an edge of unknown type
appears nowhere in the emitted node; but `to_yaml` pushes the record
unconditionally after the switch, so the unknown-type edge of
`lvlUnknownEdge` is emitted under the sequence key `"unknown"`. -/
theorem to_yaml_emits_unknown_edge_record :
    edgeUnknown.type = EdgeType.OTHER ∧
    ("unknown", YamlRec.erec edgeUnknown) ∈ to_yaml_seqs lvlUnknownEdge := by
  decide

/-- C9, amended.  Every polygon whose type is not `floor` is skipped during
serialization: no record for it appears in any emitted sequence.  Every edge
whose type is outside {lane, wall, measurement, door} is reported but its
record is nevertheless emitted, under the sequence key `"unknown"` and under
no other key. -/
theorem to_yaml_unknown_tag_handling (lvl : BuildingLevel) :
    (∀ p ∈ lvl.polygons, p.type ≠ PolygonType.FLOOR →
      ∀ s, (s, YamlRec.prec p) ∉ to_yaml_seqs lvl) ∧
    (∀ e ∈ lvl.edges, e.type = EdgeType.OTHER →
      ("unknown", YamlRec.erec e) ∈ to_yaml_seqs lvl ∧
      ∀ s, s ≠ "unknown" → (s, YamlRec.erec e) ∉ to_yaml_seqs lvl) := by
  constructor
  · intro p hp hfloor s hmem
    simp only [to_yaml_seqs, List.mem_append, List.mem_map, List.mem_filter] at hmem
    rcases hmem with ((((⟨v, _, hv⟩ | ⟨f, _, hf⟩) | ⟨e, _, he⟩) | ⟨m, _, hm⟩) | ⟨q, hq, hqe⟩)
    · exact YamlRec.noConfusion (congrArg Prod.snd hv)
    · exact YamlRec.noConfusion (congrArg Prod.snd hf)
    · exact YamlRec.noConfusion (congrArg Prod.snd he)
    · exact YamlRec.noConfusion (congrArg Prod.snd hm)
    · have hq2 : q = p := by
        have := congrArg Prod.snd hqe
        simpa using this
      rw [hq2] at hq
      exact hfloor (by simpa using hq.2)
  · intro e he htype
    constructor
    · simp only [to_yaml_seqs, List.mem_append, List.mem_map]
      refine Or.inl (Or.inl (Or.inr ⟨e, he, ?_⟩))
      rw [htype]
      rfl
    · intro s hs hmem
      simp only [to_yaml_seqs, List.mem_append, List.mem_map, List.mem_filter] at hmem
      rcases hmem with ((((⟨v, _, hv⟩ | ⟨f, _, hf⟩) | ⟨e2, _, he2⟩) | ⟨m, _, hm⟩) | ⟨q, _, hq⟩)
      · exact YamlRec.noConfusion (congrArg Prod.snd hv)
      · exact YamlRec.noConfusion (congrArg Prod.snd hf)
      · have heq : e2 = e := by
          have := congrArg Prod.snd he2
          simpa using this
        have hfst := congrArg Prod.fst he2
        rw [heq, htype] at hfst
        exact hs hfst.symm
      · exact YamlRec.noConfusion (congrArg Prod.snd hm)
      · exact YamlRec.noConfusion (congrArg Prod.snd hq)

/-- C9 amended, witness at `lvlUnknownTags`: the non-floor polygon emits no
record under any key, and the unknown-type edge's record is emitted under
`"unknown"`. -/
theorem to_yaml_unknown_tag_handling_witness :
    (∀ s, (s, YamlRec.prec polyUnknown) ∉ to_yaml_seqs lvlUnknownTags) ∧
    ("unknown", YamlRec.erec edgeUnknown) ∈ to_yaml_seqs lvlUnknownTags :=
  ⟨(to_yaml_unknown_tag_handling lvlUnknownTags).1 _ (by decide) (by decide),
    ((to_yaml_unknown_tag_handling lvlUnknownTags).2 edgeUnknown
      (by decide) (by decide)).1⟩

/-! ## C10 -/

/-- C10, confirmed.  `clear_selection` clears the selection flag of every
vertex, edge, model, polygon and fiducial and changes nothing else: each
element keeps every other field, each collection keeps its length, and every
scalar field of the level (including the layers) is untouched. -/
theorem clear_selection_only_clears_selection (lvl : BuildingLevel) (i : ℕ) :
    (clear_selection lvl).vertices[i]? =
      lvl.vertices[i]?.map (fun v => { v with selected := false }) ∧
    (clear_selection lvl).edges[i]? =
      lvl.edges[i]?.map (fun e => { e with selected := false }) ∧
    (clear_selection lvl).models[i]? =
      lvl.models[i]?.map (fun m => { m with selected := false }) ∧
    (clear_selection lvl).polygons[i]? =
      lvl.polygons[i]?.map (fun p => { p with selected := false }) ∧
    (clear_selection lvl).fiducials[i]? =
      lvl.fiducials[i]?.map (fun f => { f with selected := false }) ∧
    ((clear_selection lvl).vertices.all fun v => !v.selected) = true ∧
    ((clear_selection lvl).edges.all fun e => !e.selected) = true ∧
    ((clear_selection lvl).models.all fun m => !m.selected) = true ∧
    ((clear_selection lvl).polygons.all fun p => !p.selected) = true ∧
    ((clear_selection lvl).fiducials.all fun f => !f.selected) = true ∧
    (clear_selection lvl).vertices.length = lvl.vertices.length ∧
    (clear_selection lvl).edges.length = lvl.edges.length ∧
    (clear_selection lvl).models.length = lvl.models.length ∧
    (clear_selection lvl).polygons.length = lvl.polygons.length ∧
    (clear_selection lvl).fiducials.length = lvl.fiducials.length ∧
    (clear_selection lvl).name = lvl.name ∧
    (clear_selection lvl).drawing_filename = lvl.drawing_filename ∧
    (clear_selection lvl).drawing_width = lvl.drawing_width ∧
    (clear_selection lvl).drawing_height = lvl.drawing_height ∧
    (clear_selection lvl).drawing_meters_per_pixel =
      lvl.drawing_meters_per_pixel ∧
    (clear_selection lvl).x_meters = lvl.x_meters ∧
    (clear_selection lvl).y_meters = lvl.y_meters ∧
    (clear_selection lvl).elevation = lvl.elevation ∧
    (clear_selection lvl).layers = lvl.layers := by
  unfold clear_selection
  refine ⟨?_, ?_, ?_, ?_, ?_, ?_, ?_, ?_, ?_, ?_, ?_, ?_, ?_, ?_, ?_,
    rfl, rfl, rfl, rfl, rfl, rfl, rfl, rfl, rfl⟩ <;>
    simp [List.getElem?_map, List.all_map]
